import Mathlib

/-!
Verification of the Raumfeld speaker discovery and control library.

The definitions below are a shallow embedding of `raumfeld/__init__.py`:
the SSDP response parsing and location accumulation of `discover`, the
descriptor fetch and device construction of `RaumfeldDevice.__init__`
(with network fetches modelled as explicit environments), the sort and
zone-selection policy of `discover`, and the SOAP calls issued by every
control operation of `RaumfeldDevice`.
-/

namespace Raumfeld

/-! ## SSDP response parsing and location accumulation (discover, lines 50-59) -/

/-- One line of a response datagram: `if line.startswith('Location: '):
location = line.split(' ')[1].strip()`. -/
def parseLocationLine (line : String) : Option String :=
  if line.startsWith "Location: " then
    some (((line.splitOn " ").getD 1 "").trim)
  else
    none

/-- All locations extracted from one response datagram, which the code
splits at CRLF boundaries. -/
def extractLocations (response : String) : List String :=
  (response.splitOn "\r\n").filterMap parseLocationLine

/-- The accumulation step `if not location in locations:
locations.append(location)`. -/
def addLoc (locs : List String) (loc : String) : List String :=
  if loc ∈ locs then locs else locs ++ [loc]

/-- Accumulating every location of a stream into the running list. -/
def collectLocs (locs : List String) (stream : List String) : List String :=
  stream.foldl addLoc locs

/-- First-seen deduplication: keep the first occurrence of each element,
in order of first appearance.  Used to characterise `collectLocs`. -/
def firstSeenDedup : List String → List String
  | [] => []
  | x :: xs => x :: firstSeenDedup (xs.filter (fun y => y != x))
termination_by l => l.length
decreasing_by
  simp only [List.length_cons]
  exact Nat.lt_succ_of_le (List.length_filter_le _ _)

theorem mem_firstSeenDedup : ∀ (l : List String) (a : String),
    a ∈ firstSeenDedup l ↔ a ∈ l := by
  intro l
  induction l using firstSeenDedup.induct with
  | case1 => intro a; simp [firstSeenDedup]
  | case2 x xs ih =>
    intro a
    rw [firstSeenDedup]
    by_cases hax : a = x
    · subst hax; simp
    · simp [hax, ih, List.mem_filter, bne_iff_ne]

theorem nodup_firstSeenDedup : ∀ l : List String, (firstSeenDedup l).Nodup := by
  intro l
  induction l using firstSeenDedup.induct with
  | case1 => simp [firstSeenDedup]
  | case2 x xs ih =>
    rw [firstSeenDedup]
    refine List.nodup_cons.mpr ⟨?_, ih⟩
    intro hx
    have := (mem_firstSeenDedup _ x).mp hx
    simp [List.mem_filter] at this

theorem collectLocs_eq (stream : List String) : ∀ acc : List String,
    collectLocs acc stream =
      acc ++ firstSeenDedup (stream.filter (fun y => decide (y ∉ acc))) := by
  induction stream with
  | nil => intro acc; simp [collectLocs, firstSeenDedup]
  | cons x xs ih =>
    intro acc
    by_cases hx : x ∈ acc
    · have hstep : collectLocs acc (x :: xs) = collectLocs acc xs := by
        simp [collectLocs, addLoc, hx]
      rw [hstep, ih acc]
      congr 2
      simp [List.filter, hx]
    · have hstep : collectLocs acc (x :: xs) = collectLocs (acc ++ [x]) xs := by
        simp [collectLocs, addLoc, hx]
      rw [hstep, ih (acc ++ [x])]
      have hfil : xs.filter (fun y => decide (y ∉ acc ++ [x])) =
          (xs.filter (fun y => decide (y ∉ acc))).filter (fun y => y != x) := by
        rw [List.filter_filter]
        apply List.filter_congr
        intro a _
        by_cases hax : a = x
        · subst hax; simp
        · by_cases ha : a ∈ acc <;> simp [ha, hax]
      have hcons : (x :: xs).filter (fun y => decide (y ∉ acc)) =
          x :: xs.filter (fun y => decide (y ∉ acc)) := by
        simp [List.filter, hx]
      rw [hcons, firstSeenDedup, ← hfil]
      simp

theorem collectLocs_nil_eq (stream : List String) :
    collectLocs [] stream = firstSeenDedup stream := by
  rw [collectLocs_eq stream []]
  simp

/-! ## Discovery loop with ambient socket state (discover, lines 38-59)

`socket.setdefaulttimeout(timeout)` mutates a process-wide default; we
model the ambient state explicitly.  Each retry round opens a socket,
sends one datagram, and collects locations from the datagrams received
that round (supplied by the environment `rounds`). -/

structure NetState where
  defaultTimeout : Rat
  sentCount : Nat
deriving DecidableEq

def discoverLoop (rounds : Nat → List String) :
    List Nat → List String × NetState → List String × NetState
  | [], st => st
  | i :: rest, (locs, s) =>
      discoverLoop rounds rest
        (collectLocs locs ((rounds i).flatMap extractLocations),
         { s with sentCount := s.sentCount + 1 })

def discoverRun (timeout : Rat) (retries : Nat) (rounds : Nat → List String)
    (s : NetState) : List String × NetState :=
  discoverLoop rounds (List.range retries) ([], { s with defaultTimeout := timeout })

/-- All location strings of the datagrams of the first `retries` rounds,
in arrival order. -/
def allLocations (retries : Nat) (rounds : Nat → List String) : List String :=
  (List.range retries).flatMap (fun i => (rounds i).flatMap extractLocations)

/-! ## Location URL parsing (RaumfeldDevice.__init__, lines 76-77)

`urlparse(location)` followed by `'%s://%s' % (scheme, netloc)`.  The
scheme is the text before the first colon when it is non-empty and made
of scheme characters (lower-cased in the result); the netloc follows a
`//` and runs until a `/`, `?` or `#`. -/

def schemeChar (c : Char) : Bool :=
  c.isAlphanum || c == '+' || c == '-' || c == '.'

def stopChar (c : Char) : Bool :=
  c == '/' || c == '?' || c == '#'

def findScheme : List Char → List Char → Option (List Char × List Char)
  | _, [] => none
  | acc, c :: cs =>
      if c = ':' then
        if acc.isEmpty then none else some (acc.reverse, cs)
      else if schemeChar c then findScheme (c :: acc) cs
      else none

def parseSchemeNetloc (url : List Char) : List Char × List Char :=
  let (scheme, rest) :=
    match findScheme [] url with
    | some (s, r) => (s.map Char.toLower, r)
    | none => ([], url)
  match rest with
  | '/' :: '/' :: r => (scheme, r.takeWhile (fun c => !stopChar c))
  | _ => (scheme, [])

/-- `self.address = '%s://%s' % (scheme, netloc)`. -/
def addressOf (location : String) : String :=
  let (scheme, netloc) := parseSchemeNetloc location.data
  String.mk scheme ++ "://" ++ String.mk netloc

/-! ## Device construction (RaumfeldDevice.__init__, lines 72-98) -/

/-- A fetched description document, as far as construction reads it:
each required leaf element is present or absent. -/
structure DeviceDescription where
  friendlyName : Option String
  modelDescription : Option String
  modelName : Option String
deriving DecidableEq

inductive DescriptorError where
  | DescriptorUnavailable
  | DescriptorMalformed
deriving DecidableEq

structure RaumfeldDevice where
  location : String
  address : String
  friendly_name : String
  model_description : String
  model_name : String
  rendering_control_location : String
  av_transport_location : String
deriving DecidableEq

/-- Constructing a device handle from a location.  `fetched` is the
outcome of `fetch(self.location, self.http)`: `none` when the host is
unreachable.  Each required element is read with `next(...)`, which
fails when the element is absent; the SOAP clients are rooted at
`self.address`. -/
def mkRaumfeldDevice (location : String) (fetched : Option DeviceDescription) :
    Except DescriptorError RaumfeldDevice :=
  match fetched with
  | none => .error .DescriptorUnavailable
  | some doc =>
    match doc.friendlyName with
    | none => .error .DescriptorMalformed
    | some fn =>
      match doc.modelDescription with
      | none => .error .DescriptorMalformed
      | some md =>
        match doc.modelName with
        | none => .error .DescriptorMalformed
        | some mn =>
          .ok { location := location
                address := addressOf location
                friendly_name := fn
                model_description := md
                model_name := mn
                rendering_control_location :=
                  addressOf location ++ "/RenderingService/Control"
                av_transport_location :=
                  addressOf location ++ "/TransportService/Control" }

/-! ## Sorting, zone selection and the device stage of discover (lines 60-67) -/

def zoneSentinel : String := "Virtual Media Player"

/-- The key-based comparison of `sorted(..., key = lambda device:
device.friendly_name)`: case-sensitive string order on the keys. -/
def devLe (a b : RaumfeldDevice) : Bool :=
  decide (a.friendly_name ≤ b.friendly_name)

/-- `sorted([...], key = lambda device: device.friendly_name)`: a stable
sort, ascending by friendly name. -/
def sortDevices (ds : List RaumfeldDevice) : List RaumfeldDevice :=
  ds.mergeSort devLe

/-- Zone filter and selection: return the zones when there is at least
one, the full list otherwise. -/
def selectDevices (devices : List RaumfeldDevice) : List RaumfeldDevice :=
  let zones := devices.filter (fun d => d.model_description == zoneSentinel)
  if 0 < zones.length then zones else devices

/-- `[RaumfeldDevice(location) for location in locations]`: constructing
every handle in order, with an exception aborting the whole comprehension. -/
def buildDevices (fetchEnv : String → Option DeviceDescription) :
    List String → Except DescriptorError (List RaumfeldDevice)
  | [] => .ok []
  | loc :: rest =>
    match mkRaumfeldDevice loc (fetchEnv loc) with
    | .error e => .error e
    | .ok d =>
      match buildDevices fetchEnv rest with
      | .error e => .error e
      | .ok ds => .ok (d :: ds)

/-- The device stage of `discover`: construct, sort, select. -/
def discoverDevices (fetchEnv : String → Option DeviceDescription)
    (locs : List String) : Except DescriptorError (List RaumfeldDevice) :=
  (buildDevices fetchEnv locs).map (fun devs => selectDevices (sortDevices devs))

/-- The whole of `discover`: set the default timeout, run the retry
rounds, then construct, sort and select the devices. -/
def discoverFull (timeout : Rat) (retries : Nat) (rounds : Nat → List String)
    (fetchEnv : String → Option DeviceDescription) (s : NetState) :
    Except DescriptorError (List RaumfeldDevice) × NetState :=
  (discoverDevices fetchEnv (discoverRun timeout retries rounds s).1,
   (discoverRun timeout retries rounds s).2)

/-! ## SOAP calls of the control surface (RaumfeldDevice, lines 100-197) -/

inductive Endpoint where
  | renderingControl
  | avTransport
deriving DecidableEq

structure SoapCall where
  endpoint : Endpoint
  action : String
  instanceID : Int
  args : List (String × String)
deriving DecidableEq

def playCall : SoapCall :=
  { endpoint := .avTransport, action := "Play", instanceID := 1
    args := [("Speed", "2")] }

def playURICall (value meta : String) : SoapCall :=
  { endpoint := .avTransport, action := "SetAVTransportURI", instanceID := 1
    args := [("CurrentURI", value), ("CurrentURIMetaData", meta)] }

def nextCall : SoapCall :=
  { endpoint := .avTransport, action := "Next", instanceID := 1, args := [] }

def previousCall : SoapCall :=
  { endpoint := .avTransport, action := "Previous", instanceID := 1, args := [] }

def pauseCall : SoapCall :=
  { endpoint := .avTransport, action := "Pause", instanceID := 1, args := [] }

def seekCall (target unit : String) : SoapCall :=
  { endpoint := .avTransport, action := "Seek", instanceID := 1
    args := [("Unit", unit), ("Target", target)] }

def getVolumeCall : SoapCall :=
  { endpoint := .renderingControl, action := "GetVolume", instanceID := 1
    args := [] }

def setVolumeCall (value : Int) : SoapCall :=
  { endpoint := .renderingControl, action := "SetVolume", instanceID := 1
    args := [("DesiredVolume", toString value)] }

def getMuteCall : SoapCall :=
  { endpoint := .renderingControl, action := "GetMute", instanceID := 1
    args := [("Channel", "1")] }

def setMuteCall (value : Bool) : SoapCall :=
  { endpoint := .renderingControl, action := "SetMute", instanceID := 1
    args := [("DesiredMute", if value then "1" else "0")] }

def getTransportInfoCall : SoapCall :=
  { endpoint := .avTransport, action := "GetTransportInfo", instanceID := 1
    args := [] }

def getMediaInfoCall : SoapCall :=
  { endpoint := .avTransport, action := "GetMediaInfo", instanceID := 1
    args := [] }

def getPositionInfoCall : SoapCall :=
  { endpoint := .avTransport, action := "GetPositionInfo", instanceID := 1
    args := [] }

/-- The mute getter: `return response.CurrentMute == 1`. -/
def muteFromWire (currentMute : Int) : Bool :=
  currentMute == 1

/-! ## Helper lemmas about the discovery loop -/

theorem discoverLoop_defaultTimeout (rounds : Nat → List String) :
    ∀ (idxs : List Nat) (st : List String × NetState),
      (discoverLoop rounds idxs st).2.defaultTimeout = st.2.defaultTimeout := by
  intro idxs
  induction idxs with
  | nil => intro st; rfl
  | cons i rest ih =>
    intro st
    cases st with
    | mk locs s => rw [discoverLoop, ih]

theorem discoverLoop_fst (rounds : Nat → List String) :
    ∀ (idxs : List Nat) (locs : List String) (s : NetState),
      (discoverLoop rounds idxs (locs, s)).1 =
        collectLocs locs (idxs.flatMap (fun i => (rounds i).flatMap extractLocations)) := by
  intro idxs
  induction idxs with
  | nil => intro locs s; simp [discoverLoop, collectLocs]
  | cons i rest ih =>
    intro locs s
    rw [discoverLoop, ih]
    simp [collectLocs, List.foldl_append]

/-! ## Claims -/

/-- Claim C2, counterexample: the spec says any nonzero wire value in
`CurrentMute` reads as muted, but the mute getter compares with `== 1`,
so the nonzero wire value 2 reads as not muted. -/
theorem mute_nonzero_claim_false : muteFromWire 2 = false ∧ (2 : Int) ≠ 0 := by
  decide

/-- Claim C2, amended: reading the mute property returns true exactly
when the `CurrentMute` wire value equals 1; every other value, zero or
nonzero, reads as not muted. -/
theorem mute_reads_true_iff_wire_one (w : Int) : muteFromWire w = true ↔ w = 1 := by
  simp [muteFromWire]

/-- Claim C6: calling discover with `retries = 0` returns an empty
device list, sends no datagrams (the sent count is unchanged), and only
sets the default socket timeout. -/
theorem discover_zero_retries (timeout : Rat) (rounds : Nat → List String)
    (fetchEnv : String → Option DeviceDescription) (s : NetState) :
    discoverFull timeout 0 rounds fetchEnv s =
      (Except.ok [], { s with defaultTimeout := timeout }) := by
  simp [discoverFull, discoverRun, discoverLoop, discoverDevices, buildDevices,
        sortDevices, selectDevices, Except.map]

/-- Claim C7: whenever any of the three required leaf elements (friendly
name, model description, model name) is absent from the fetched
description document, construction fails with `DescriptorMalformed` and
no device handle is returned. -/
theorem malformed_descriptor_fails (location : String) (doc : DeviceDescription)
    (h : doc.friendlyName = none ∨ doc.modelDescription = none ∨
      doc.modelName = none) :
    mkRaumfeldDevice location (some doc) = .error .DescriptorMalformed := by
  rcases doc with ⟨fn, md, mn⟩
  cases fn <;> cases md <;> cases mn <;> simp_all [mkRaumfeldDevice]

/-- Witness for C7 at a concrete document missing its model description. -/
theorem malformed_descriptor_fails_witness :
    mkRaumfeldDevice "http://10.0.0.2/desc.xml"
        (some { friendlyName := some "Kitchen", modelDescription := none,
                modelName := some "Raumfeld One" }) =
      .error .DescriptorMalformed :=
  malformed_descriptor_fails _ _ (Or.inr (Or.inl rfl))

/-- Claim C9: discover sets the process-wide default socket timeout to
its timeout argument before the retry loop, and the new default is still
in place in the state discover returns, for every retries value. -/
theorem discover_sets_global_default_timeout
    (timeout : Rat) (retries : Nat) (rounds : Nat → List String)
    (fetchEnv : String → Option DeviceDescription) (s : NetState) :
    (discoverFull timeout retries rounds fetchEnv s).2.defaultTimeout = timeout := by
  simp [discoverFull, discoverRun, discoverLoop_defaultTimeout]

/-- Claim C10: every control-surface operation issues its RPC with the
fixed instance identifier `InstanceID = 1`, for every input. -/
theorem all_operations_use_instance_id_one :
    playCall.instanceID = 1 ∧ (∀ v m, (playURICall v m).instanceID = 1) ∧
    nextCall.instanceID = 1 ∧ previousCall.instanceID = 1 ∧
    pauseCall.instanceID = 1 ∧ (∀ t u, (seekCall t u).instanceID = 1) ∧
    getVolumeCall.instanceID = 1 ∧ (∀ v, (setVolumeCall v).instanceID = 1) ∧
    getMuteCall.instanceID = 1 ∧ (∀ b, (setMuteCall b).instanceID = 1) ∧
    getTransportInfoCall.instanceID = 1 ∧ getMediaInfoCall.instanceID = 1 ∧
    getPositionInfoCall.instanceID = 1 :=
  ⟨rfl, fun _ _ => rfl, rfl, rfl, rfl, fun _ _ => rfl, rfl, fun _ => rfl,
   rfl, fun _ => rfl, rfl, rfl, rfl⟩

theorem buildDevices_error_of_mem (fetchEnv : String → Option DeviceDescription)
    (locs : List String) (loc : String) (e : DescriptorError)
    (hmem : loc ∈ locs)
    (herr : mkRaumfeldDevice loc (fetchEnv loc) = .error e) :
    ∃ e', buildDevices fetchEnv locs = .error e' := by
  induction locs with
  | nil => cases hmem
  | cons y ys ih =>
    rcases List.mem_cons.mp hmem with h | h
    · subst h
      exact ⟨e, by simp [buildDevices, herr]⟩
    · cases hy : mkRaumfeldDevice y (fetchEnv y) with
      | error e2 => exact ⟨e2, by simp [buildDevices, hy]⟩
      | ok d =>
        obtain ⟨e', he'⟩ := ih h
        exact ⟨e', by simp [buildDevices, hy, he']⟩

/-- An environment with one unreachable location and every other
location hosting a well-formed description document. -/
def envC1 : String → Option DeviceDescription := fun loc =>
  if loc = "http://10.0.0.1/desc.xml" then none
  else some { friendlyName := some "Bedroom", modelDescription := some "Raumfeld One",
              modelName := some "Raumfeld One" }

/-- Claim C1, counterexample: with two discovered locations of which the
first is unreachable, the second location still constructs successfully,
yet discover propagates the first construction failure and returns no
handles at all, instead of the handles for the other locations. -/
theorem discover_abort_on_failure_cex :
    mkRaumfeldDevice "http://10.0.0.2/desc.xml" (envC1 "http://10.0.0.2/desc.xml") =
      .ok { location := "http://10.0.0.2/desc.xml", address := "http://10.0.0.2",
            friendly_name := "Bedroom", model_description := "Raumfeld One",
            model_name := "Raumfeld One",
            rendering_control_location := "http://10.0.0.2/RenderingService/Control",
            av_transport_location := "http://10.0.0.2/TransportService/Control" } ∧
    discoverDevices envC1 ["http://10.0.0.1/desc.xml", "http://10.0.0.2/desc.xml"] =
      .error .DescriptorUnavailable := by
  exact ⟨rfl, rfl⟩

/-- Claim C1, amended: a failure while constructing the Device Handle
for any discovered location aborts the discovery pass: the error
propagates out of discover and no handles are returned, not even the
ones that would construct successfully. -/
theorem discover_construction_failure_aborts
    (fetchEnv : String → Option DeviceDescription) (locs : List String)
    (loc : String) (e : DescriptorError)
    (hmem : loc ∈ locs)
    (herr : mkRaumfeldDevice loc (fetchEnv loc) = .error e) :
    ∃ e', discoverDevices fetchEnv locs = .error e' := by
  obtain ⟨e', he'⟩ := buildDevices_error_of_mem fetchEnv locs loc e hmem herr
  exact ⟨e', by simp [discoverDevices, he', Except.map]⟩

/-- Witness for the amended C1 at the concrete two-location input. -/
theorem discover_construction_failure_aborts_witness :
    ∃ e', discoverDevices envC1
        ["http://10.0.0.1/desc.xml", "http://10.0.0.2/desc.xml"] = .error e' :=
  discover_construction_failure_aborts envC1 _ "http://10.0.0.1/desc.xml"
    .DescriptorUnavailable (List.mem_cons_self _ _) rfl

/-- Claim C4: across all retry rounds and any number of duplicate
`Location` headers, the accumulated location list contains each unique
location at most once (it has no duplicates), and it is exactly the
first-seen deduplication of the received location stream, so the order
of first appearance is preserved. -/
theorem discover_locations_unique_first_seen
    (timeout : Rat) (retries : Nat) (rounds : Nat → List String) (s : NetState) :
    ((discoverRun timeout retries rounds s).1).Nodup ∧
    (discoverRun timeout retries rounds s).1 =
      firstSeenDedup (allLocations retries rounds) ∧
    ∀ l, l ∈ (discoverRun timeout retries rounds s).1 ↔
      l ∈ allLocations retries rounds := by
  have hrun : (discoverRun timeout retries rounds s).1 =
      firstSeenDedup (allLocations retries rounds) := by
    rw [discoverRun, discoverLoop_fst, allLocations, collectLocs_nil_eq]
  refine ⟨?_, hrun, ?_⟩
  · rw [hrun]; exact nodup_firstSeenDedup _
  · intro l; rw [hrun]; exact mem_firstSeenDedup _ l

theorem devLe_trans (a b c : RaumfeldDevice)
    (hab : devLe a b) (hbc : devLe b c) : devLe a c := by
  simp only [devLe, decide_eq_true_eq] at *
  exact le_trans hab hbc

theorem devLe_total (a b : RaumfeldDevice) : devLe a b || devLe b a := by
  simp only [devLe, Bool.or_eq_true, decide_eq_true_eq]
  exact le_total _ _

theorem sortDevices_pairwise (ds : List RaumfeldDevice) :
    List.Pairwise (fun a b : RaumfeldDevice => a.friendly_name ≤ b.friendly_name)
      (sortDevices ds) := by
  have h := List.sorted_mergeSort devLe_trans devLe_total ds
  exact h.imp (fun hab => by simpa [devLe] using hab)

theorem sortDevices_stable_filter (ds : List RaumfeldDevice) (n : String) :
    (sortDevices ds).filter (fun d => d.friendly_name == n) =
      ds.filter (fun d => d.friendly_name == n) := by
  have hall : ∀ a ∈ ds.filter (fun d : RaumfeldDevice => d.friendly_name == n),
      a.friendly_name = n := by
    intro a ha
    have := (List.mem_filter.mp ha).2
    simpa using this
  have hpw : (ds.filter (fun d : RaumfeldDevice => d.friendly_name == n)).Pairwise
      (fun a b => devLe a b) := by
    apply List.pairwise_of_forall_mem_list
    intro a ha b hb
    simp [devLe, hall a ha, hall b hb]
  have hsub : List.Sublist (ds.filter (fun d : RaumfeldDevice => d.friendly_name == n))
      (sortDevices ds) :=
    List.sublist_mergeSort devLe_trans devLe_total hpw (List.filter_sublist ds)
  have hself : (ds.filter (fun d : RaumfeldDevice => d.friendly_name == n)).filter
      (fun d => d.friendly_name == n) =
      ds.filter (fun d : RaumfeldDevice => d.friendly_name == n) :=
    List.filter_eq_self.mpr (fun a ha => (List.mem_filter.mp ha).2)
  have hsub2 : List.Sublist (ds.filter (fun d : RaumfeldDevice => d.friendly_name == n))
      ((sortDevices ds).filter (fun d => d.friendly_name == n)) := by
    have := hsub.filter (fun d : RaumfeldDevice => d.friendly_name == n)
    rwa [hself] at this
  have hperm : ((sortDevices ds).filter (fun d => d.friendly_name == n)).Perm
      (ds.filter (fun d : RaumfeldDevice => d.friendly_name == n)) :=
    (List.mergeSort_perm ds devLe).filter _
  exact (hsub2.eq_of_length hperm.length_eq.symm).symm

/-- Claim C5: the list the sort step of discover produces is ordered
ascending by friendly name (case-sensitive), is a permutation of the
constructed devices, keeps devices with equal friendly names in their
original relative order (stability, stated per name via filter), and the
final selected list is sorted as well. -/
theorem discover_sorted_stable (ds : List RaumfeldDevice) :
    List.Pairwise (fun a b : RaumfeldDevice => a.friendly_name ≤ b.friendly_name)
      (sortDevices ds) ∧
    (sortDevices ds).Perm ds ∧
    (∀ n, (sortDevices ds).filter (fun d => d.friendly_name == n) =
          ds.filter (fun d => d.friendly_name == n)) ∧
    List.Pairwise (fun a b : RaumfeldDevice => a.friendly_name ≤ b.friendly_name)
      (selectDevices (sortDevices ds)) := by
  refine ⟨sortDevices_pairwise ds, List.mergeSort_perm ds devLe,
    sortDevices_stable_filter ds, ?_⟩
  by_cases h : 0 < ((sortDevices ds).filter
      (fun d => d.model_description == zoneSentinel)).length
  · have : selectDevices (sortDevices ds) = (sortDevices ds).filter
        (fun d => d.model_description == zoneSentinel) := by
      simp [selectDevices, h]
    rw [this]
    exact (sortDevices_pairwise ds).filter _
  · have : selectDevices (sortDevices ds) = sortDevices ds := by
      simp [selectDevices, h]
    rw [this]
    exact sortDevices_pairwise ds

/-- Claim C3: if at least one constructed device's model description
equals the zone sentinel, the selection step returns exactly the zone
devices (the sentinel filter of the sorted list, whose membership is
exactly the zone devices of the input); otherwise it returns the full
sorted list. -/
theorem discover_zone_selection (ds : List RaumfeldDevice) :
    ((∃ d ∈ ds, d.model_description = zoneSentinel) →
      selectDevices (sortDevices ds) =
        (sortDevices ds).filter (fun d => d.model_description == zoneSentinel) ∧
      ∀ d, d ∈ selectDevices (sortDevices ds) ↔
        d ∈ ds ∧ d.model_description = zoneSentinel) ∧
    ((¬ ∃ d ∈ ds, d.model_description = zoneSentinel) →
      selectDevices (sortDevices ds) = sortDevices ds) := by
  constructor
  · rintro ⟨d, hd, hzone⟩
    have hmem : d ∈ (sortDevices ds).filter
        (fun d => d.model_description == zoneSentinel) := by
      refine List.mem_filter.mpr ⟨?_, by simp [hzone]⟩
      simpa [sortDevices] using hd
    have hlen : 0 < ((sortDevices ds).filter
        (fun d => d.model_description == zoneSentinel)).length :=
      List.length_pos.mpr (List.ne_nil_of_mem hmem)
    have hsel : selectDevices (sortDevices ds) =
        (sortDevices ds).filter (fun d => d.model_description == zoneSentinel) := by
      simp [selectDevices, hlen]
    refine ⟨hsel, ?_⟩
    intro a
    rw [hsel]
    simp [List.mem_filter, sortDevices, and_comm]
  · intro hno
    have hfil : (sortDevices ds).filter
        (fun d => d.model_description == zoneSentinel) = [] := by
      rw [List.filter_eq_nil_iff]
      intro a ha
      simp only [beq_iff_eq]
      intro hz
      exact hno ⟨a, by simpa [sortDevices] using ha, hz⟩
    simp [selectDevices, hfil]

/-- A concrete zone device for exercising the selection policy. -/
def zoneDev : RaumfeldDevice :=
  { location := "http://10.0.0.3/desc.xml", address := "http://10.0.0.3",
    friendly_name := "Living Room", model_description := "Virtual Media Player",
    model_name := "Virtual Media Player",
    rendering_control_location := "http://10.0.0.3/RenderingService/Control",
    av_transport_location := "http://10.0.0.3/TransportService/Control" }

/-- Witness for C3: with a single constructed device that is a zone, the
selection returns exactly that zone device. -/
theorem discover_zone_selection_witness :
    selectDevices (sortDevices [zoneDev]) = [zoneDev] := by
  have h := (discover_zone_selection [zoneDev]).1 ⟨zoneDev, by simp, rfl⟩
  rw [h.1]
  simp [sortDevices, zoneDev, zoneSentinel]

theorem schemeChar_colon_false : schemeChar ':' = false := by decide

theorem colonSlashSlash_data : ("://" : String).data = [':', '/', '/'] := rfl

theorem findScheme_go (s : List Char) (hs : ∀ c ∈ s, schemeChar c = true) :
    ∀ (acc : List Char) (r : List Char), acc.isEmpty = false ∨ s ≠ [] →
      findScheme acc (s ++ ':' :: r) = some (acc.reverse ++ s, r) := by
  induction s with
  | nil =>
    intro acc r h
    have hne : acc.isEmpty = false := by
      rcases h with h | h
      · exact h
      · exact absurd rfl h
    simp [findScheme, hne]
  | cons c cs ih =>
    intro acc r h
    have hc : schemeChar c = true := hs c (List.mem_cons_self _ _)
    have hcol : ¬ (c = ':') := by
      intro hcc
      subst hcc
      rw [schemeChar_colon_false] at hc
      cases hc
    have hstep : findScheme acc ((c :: cs) ++ ':' :: r) =
        findScheme (c :: acc) (cs ++ ':' :: r) := by
      simp [findScheme, hcol, hc]
    rw [hstep, ih (fun x hx => hs x (List.mem_cons_of_mem _ hx)) (c :: acc) r
      (Or.inl rfl)]
    simp

theorem findScheme_spec (s r : List Char) (hne : s ≠ [])
    (hs : ∀ c ∈ s, schemeChar c = true) :
    findScheme [] (s ++ ':' :: r) = some (s, r) := by
  simpa using findScheme_go s hs [] r (Or.inr hne)

theorem takeWhile_append_all (p : Char → Bool) (l₁ l₂ : List Char)
    (h : ∀ c ∈ l₁, p c = true) :
    (l₁ ++ l₂).takeWhile p = l₁ ++ l₂.takeWhile p := by
  induction l₁ with
  | nil => simp
  | cons c cs ih =>
    have hc := h c (List.mem_cons_self _ _)
    simp [List.takeWhile_cons, hc,
      ih (fun x hx => h x (List.mem_cons_of_mem _ hx))]

theorem parseSchemeNetloc_spec (s h p : List Char)
    (hsne : s ≠ []) (hs : ∀ c ∈ s, schemeChar c = true)
    (hh : ∀ c ∈ h, stopChar c = false)
    (hp : p = [] ∨ ∃ c cs, p = c :: cs ∧ stopChar c = true) :
    parseSchemeNetloc (s ++ ':' :: '/' :: '/' :: (h ++ p)) =
      (s.map Char.toLower, h) := by
  unfold parseSchemeNetloc
  rw [findScheme_spec s ('/' :: '/' :: (h ++ p)) hsne hs]
  have htw : (h ++ p).takeWhile (fun c => !stopChar c) = h := by
    rw [takeWhile_append_all _ h p (fun c hc => by simp [hh c hc])]
    rcases hp with hp | ⟨c, cs, hpc, hstop⟩
    · simp [hp]
    · subst hpc
      simp [List.takeWhile_cons, hstop]
  simp [htw]

/-- Claim C8: for every location URL of the shape
`scheme://netloc<rest>` (non-empty scheme of scheme characters, netloc
free of `/`, `?`, `#`, rest empty or starting at a path/query/fragment
delimiter), a successfully constructed device's base address is exactly
the scheme and network-location components, with no path or query, and
both control endpoint URLs are rooted at that same base address. -/
theorem device_base_address_and_endpoints
    (scheme host path : String) (fetched : Option DeviceDescription)
    (d : RaumfeldDevice)
    (hsne : scheme.data ≠ [])
    (hs : ∀ c ∈ scheme.data, schemeChar c = true)
    (hh : ∀ c ∈ host.data, stopChar c = false)
    (hp : path.data = [] ∨ ∃ c cs, path.data = c :: cs ∧ stopChar c = true)
    (hok : mkRaumfeldDevice (scheme ++ "://" ++ host ++ path) fetched = .ok d) :
    d.address = String.mk (scheme.data.map Char.toLower) ++ "://" ++ host ∧
    d.rendering_control_location = d.address ++ "/RenderingService/Control" ∧
    d.av_transport_location = d.address ++ "/TransportService/Control" := by
  have haddr : addressOf (scheme ++ "://" ++ host ++ path) =
      String.mk (scheme.data.map Char.toLower) ++ "://" ++ host := by
    unfold addressOf
    have hdata : (scheme ++ "://" ++ host ++ path).data =
        scheme.data ++ ':' :: '/' :: '/' :: (host.data ++ path.data) := by
      simp [String.data_append, colonSlashSlash_data]
    rw [hdata,
      parseSchemeNetloc_spec scheme.data host.data path.data hsne hs hh hp]
  rcases fetched with _ | doc
  · simp [mkRaumfeldDevice] at hok
  · rcases doc with ⟨fn, md, mn⟩
    cases fn with
    | none => simp [mkRaumfeldDevice] at hok
    | some fn =>
      cases md with
      | none => simp [mkRaumfeldDevice] at hok
      | some md =>
        cases mn with
        | none => simp [mkRaumfeldDevice] at hok
        | some mn =>
          simp only [mkRaumfeldDevice, Except.ok.injEq] at hok
          subst hok
          exact ⟨haddr, rfl, rfl⟩

def docC8 : DeviceDescription :=
  { friendlyName := some "Kitchen", modelDescription := some "Raumfeld One",
    modelName := some "Raumfeld One" }

def devC8 : RaumfeldDevice :=
  { location := "http://10.0.0.7:47365/device.xml",
    address := "http://10.0.0.7:47365",
    friendly_name := "Kitchen", model_description := "Raumfeld One",
    model_name := "Raumfeld One",
    rendering_control_location := "http://10.0.0.7:47365/RenderingService/Control",
    av_transport_location := "http://10.0.0.7:47365/TransportService/Control" }

/-- Witness for C8 at a concrete location URL with port and path. -/
theorem device_base_address_and_endpoints_witness :
    devC8.address = String.mk ("http".data.map Char.toLower) ++ "://" ++
      "10.0.0.7:47365" ∧
    devC8.rendering_control_location = devC8.address ++
      "/RenderingService/Control" ∧
    devC8.av_transport_location = devC8.address ++ "/TransportService/Control" :=
  device_base_address_and_endpoints "http" "10.0.0.7:47365" "/device.xml"
    (some docC8) devC8 (by decide) (by decide) (by decide)
    (Or.inr ⟨'/', "device.xml".data, by decide, by decide⟩) rfl

end Raumfeld
